import Mathlib

/-!
Shallow embedding of the document-generation core of SENA-Gestion-Educativa
(`src/lib/pdf-utils.ts`), together with proofs of the specified properties.

The embedding models:
* the pure string formatters (`formatDocumentNumber`, `buildTipoYDocumentoAprendiz`,
  `buildTipoYDocumentoTutor`);
* a PDF form as a partial map from field names to text values, with
  `setTextField` as in the source (lookup may fail, failures are caught);
* the two document fillers as the ordered sequence of `setTextField` writes
  they perform, plus the signature-embedding steps;
* the orchestrator `generateDocuments`.
-/

namespace SenaPdf

/-! ### Character classes used by the JS regexes in `formatDocumentNumber` -/

/-- JS regex word character (`\w`): ASCII letter, digit or underscore. -/
def isWordChar (c : Char) : Bool := c.isAlphanum || c == '_'

/-- Characters removed by `replace(/[\.\s]/g, '')`: a dot or (ASCII) whitespace. -/
def isSepChar (c : Char) : Bool :=
  c == '.' || c == ' ' || c == '\t' || c == '\n' || c == '\r' || c == '\x0b' || c == '\x0c'

/-- Anchored test for the lookahead `(\d{3})+(?!\d)`: some positive multiple of
three digits heads the list and the following character (if any) is not a digit. -/
def digitTriples : List Char → Bool
  | c₁ :: c₂ :: c₃ :: rest =>
      c₁.isDigit && c₂.isDigit && c₃.isDigit &&
        (match rest with
         | [] => true
         | d :: _ => !d.isDigit || digitTriples rest)
  | _ => false

/-- Whether the character on the left of the current position is a word
character (`none` stands for the start of the string). -/
def prevIsWord : Option Char → Bool
  | none => false
  | some c => isWordChar c

/-- One pass of `replace(/\B(?=(\d{3})+(?!\d))/g, '.')`: a dot is inserted at
every position that is not a word boundary and whose suffix matches the
lookahead. -/
def insertDots : Option Char → List Char → List Char
  | _, [] => []
  | prev, c :: rest =>
      if (prevIsWord prev == isWordChar c) && digitTriples (c :: rest) then
        '.' :: c :: insertDots (some c) rest
      else
        c :: insertDots (some c) rest

/-- `replace(/[\.\s]/g, '')`. -/
def stripSeps (l : List Char) : List Char := l.filter (fun c => !isSepChar c)

/-- `formatDocumentNumber` from `pdf-utils.ts`: empty (falsy) input yields `''`;
otherwise strip dots and whitespace, then insert `.` every three digits counted
from the right via the regex modelled by `insertDots`. -/
def formatDocumentNumberL (l : List Char) : List Char :=
  if l = [] then [] else insertDots none (stripSeps l)

/-- String-level wrapper of `formatDocumentNumberL`. -/
def formatDocumentNumber (s : String) : String := ⟨formatDocumentNumberL s.data⟩

/-- Specification-side grouping: a dot is inserted before every character whose
suffix (that character included) has length a multiple of three, except at the
very front of the list. `first` records whether we are at the front. -/
def groupRight3 : Bool → List Char → List Char
  | _, [] => []
  | first, c :: rest =>
      if first = false ∧ (c :: rest).length % 3 = 0 then
        '.' :: c :: groupRight3 false rest
      else
        c :: groupRight3 false rest

/-- Grouping separator every three digits counted from the right, as the spec
describes it. -/
def groupFromRight (l : List Char) : List Char := groupRight3 true l

example : formatDocumentNumber "1234567" = "1.234.567" := by decide
example : formatDocumentNumber "" = "" := by decide
example : formatDocumentNumber "1.234 567" = "1.234.567" := by decide
example : groupFromRight "1234567".data = "1.234.567".data := by decide

/-! ### Lemmas about the formatter on digit-only inputs -/

theorem isWordChar_of_isDigit {c : Char} (h : c.isDigit = true) : isWordChar c = true := by
  simp [isWordChar, Char.isAlphanum, h]

/-- On an all-digit list the lookahead `(\d{3})+(?!\d)` succeeds exactly when the
list is nonempty of length divisible by three. -/
theorem digitTriples_all_digits (l : List Char) (h : ∀ c ∈ l, c.isDigit = true) :
    digitTriples l = (decide (0 < l.length) && decide (l.length % 3 = 0)) := by
  induction l using digitTriples.induct with
  | case1 c₁ c₂ c₃ rest ih =>
      simp only [List.mem_cons, forall_eq_or_imp] at h
      obtain ⟨h1, h2, h3, hrest⟩ := h
      cases rest with
      | nil => simp [digitTriples, h1, h2, h3]
      | cons d tail =>
          have hd : d.isDigit = true := hrest d (by simp)
          have ihd := ih (by intro c hc; exact hrest c hc)
          rw [digitTriples, h1, h2, h3, hd]
          simp only [Bool.true_and, Bool.not_true, Bool.false_or]
          rw [ihd]
          simp only [List.length_cons]
          have hp : (0 < tail.length + 1) ↔ (0 < tail.length + 1 + 1 + 1 + 1) := by omega
          have hq : ((tail.length + 1) % 3 = 0) ↔ ((tail.length + 1 + 1 + 1 + 1) % 3 = 0) := by
            omega
          rw [decide_eq_decide.mpr hp, decide_eq_decide.mpr hq]
  | case2 t hne =>
      rcases t with _ | ⟨a, _ | ⟨b, _ | ⟨c, rest⟩⟩⟩
      · simp [digitTriples]
      · simp [digitTriples]
      · simp [digitTriples]
      · exact absurd rfl (by intro hh; exact hne a b c rest hh)

/-- A digit is none of the separator characters. -/
theorem not_sep_of_digit {c : Char} (h : c.isDigit = true) : isSepChar c = false := by
  by_contra hne
  rw [Bool.not_eq_false, isSepChar] at hne
  simp only [Bool.or_eq_true, beq_iff_eq] at hne
  rcases hne with ((((((h1 | h1) | h1) | h1) | h1) | h1) | h1) <;> subst h1 <;>
    exact absurd h (by decide)

/-- After a digit (i.e. inside a run of word characters), the regex pass on an
all-digit list places dots exactly every three positions counted from the right. -/
theorem insertDots_some_digit (l : List Char) (h : ∀ c ∈ l, c.isDigit = true)
    (d : Char) (hd : d.isDigit = true) :
    insertDots (some d) l = groupRight3 false l := by
  induction l generalizing d with
  | nil => rfl
  | cons c rest ih =>
      simp only [List.mem_cons, forall_eq_or_imp] at h
      obtain ⟨hc, hrest⟩ := h
      rw [insertDots, groupRight3]
      rw [prevIsWord, isWordChar_of_isDigit hd, isWordChar_of_isDigit hc]
      rw [digitTriples_all_digits (c :: rest)
        (by simp only [List.mem_cons]; rintro x (rfl | hx); exact hc; exact hrest x hx)]
      rw [ih hrest c hc]
      by_cases hmod : (c :: rest).length % 3 = 0
      · simp [hmod]
      · simp [hmod]

/-- On a nonempty all-digit list the whole regex pass coincides with the
spec-side right-to-left grouping. -/
theorem insertDots_digits (l : List Char) (h : ∀ c ∈ l, c.isDigit = true) :
    insertDots none l = groupFromRight l := by
  cases l with
  | nil => rfl
  | cons c rest =>
      simp only [List.mem_cons, forall_eq_or_imp] at h
      obtain ⟨hc, hrest⟩ := h
      rw [insertDots, groupFromRight, groupRight3]
      rw [prevIsWord, isWordChar_of_isDigit hc]
      rw [if_neg (by simp), if_neg (by simp)]
      exact congrArg (List.cons c) (insertDots_some_digit rest hrest c hc)

theorem stripSeps_digits (l : List Char) (h : ∀ c ∈ l, c.isDigit = true) :
    stripSeps l = l := by
  induction l with
  | nil => rfl
  | cons c rest ih =>
      simp only [List.mem_cons, forall_eq_or_imp] at h
      obtain ⟨hc, hrest⟩ := h
      rw [stripSeps, List.filter_cons, if_pos (by rw [not_sep_of_digit hc]; rfl)]
      exact congrArg (List.cons c) (ih hrest)

/-- Stripping separators from a digits-dots-and-spaces list keeps exactly the
digits. -/
theorem stripSeps_mixed (l : List Char)
    (h : ∀ c ∈ l, c.isDigit = true ∨ c = '.' ∨ c = ' ') :
    stripSeps l = l.filter (fun c => c.isDigit) := by
  induction l with
  | nil => rfl
  | cons c rest ih =>
      simp only [List.mem_cons, forall_eq_or_imp] at h
      obtain ⟨hc, hrest⟩ := h
      rw [stripSeps, List.filter_cons, List.filter_cons]
      rcases hc with hd | hdot | hsp
      · rw [if_pos (by rw [not_sep_of_digit hd]; rfl), if_pos (by rw [hd])]
        exact congrArg (List.cons c) (ih hrest)
      · subst hdot
        rw [if_neg (by decide), if_neg (by decide)]
        exact ih hrest
      · subst hsp
        rw [if_neg (by decide), if_neg (by decide)]
        exact ih hrest

/-- The grouped output carries exactly the digits of its (all-digit) input. -/
theorem groupRight3_filter_digits (l : List Char) (h : ∀ c ∈ l, c.isDigit = true) :
    ∀ first, (groupRight3 first l).filter (fun c => c.isDigit) = l := by
  induction l with
  | nil => intro first; rfl
  | cons c rest ih =>
      intro first
      simp only [List.mem_cons, forall_eq_or_imp] at h
      obtain ⟨hc, hrest⟩ := h
      rw [groupRight3]
      by_cases hcond : first = false ∧ (c :: rest).length % 3 = 0
      · rw [if_pos hcond, List.filter_cons, List.filter_cons,
          if_neg (by decide), if_pos (by rw [hc])]
        exact congrArg (List.cons c) (ih hrest false)
      · rw [if_neg hcond, List.filter_cons, if_pos (by rw [hc])]
        exact congrArg (List.cons c) (ih hrest false)

/-- Stripping separators undoes the grouping on an all-digit input. -/
theorem stripSeps_groupRight3 (l : List Char) (h : ∀ c ∈ l, c.isDigit = true) :
    ∀ first, stripSeps (groupRight3 first l) = l := by
  induction l with
  | nil => intro first; rfl
  | cons c rest ih =>
      intro first
      simp only [List.mem_cons, forall_eq_or_imp] at h
      obtain ⟨hc, hrest⟩ := h
      rw [groupRight3]
      by_cases hcond : first = false ∧ (c :: rest).length % 3 = 0
      · rw [if_pos hcond, stripSeps, List.filter_cons, List.filter_cons,
          if_neg (by decide), if_pos (by rw [not_sep_of_digit hc]; rfl)]
        exact congrArg (List.cons c) (ih hrest false)
      · rw [if_neg hcond, stripSeps, List.filter_cons,
          if_pos (by rw [not_sep_of_digit hc]; rfl)]
        exact congrArg (List.cons c) (ih hrest false)

/-- `formatDocumentNumberL` on a digits-dots-and-spaces list with at least one
digit groups the digit subsequence from the right. -/
theorem formatDocumentNumberL_mixed (l : List Char)
    (h : ∀ c ∈ l, c.isDigit = true ∨ c = '.' ∨ c = ' ')
    (h1 : 1 ≤ (l.filter (fun c => c.isDigit)).length) :
    formatDocumentNumberL l = groupFromRight (l.filter (fun c => c.isDigit)) := by
  have hne : l ≠ [] := by
    intro he
    rw [he] at h1
    simp at h1
  rw [formatDocumentNumberL, if_neg hne, stripSeps_mixed l h]
  exact insertDots_digits _ (by intro c hc; exact (List.mem_filter.mp hc).2)

/-- `formatDocumentNumberL` on a nonempty all-digit list groups from the right. -/
theorem formatDocumentNumberL_digits (l : List Char) (h : ∀ c ∈ l, c.isDigit = true)
    (hne : l ≠ []) : formatDocumentNumberL l = groupFromRight l := by
  rw [formatDocumentNumberL, if_neg hne, stripSeps_digits l h]
  exact insertDots_digits l h

/-- Re-running the formatter on its own all-digit output is the identity. -/
theorem formatDocumentNumberL_idem (l : List Char) (h : ∀ c ∈ l, c.isDigit = true) :
    formatDocumentNumberL (formatDocumentNumberL l) = formatDocumentNumberL l := by
  cases l with
  | nil => rfl
  | cons c rest =>
      have hne : (c :: rest) ≠ [] := by simp
      rw [formatDocumentNumberL_digits _ h hne]
      have hne' : groupFromRight (c :: rest) ≠ [] := by
        rw [groupFromRight, groupRight3]
        rw [if_neg (by simp)]
        simp
      rw [formatDocumentNumberL, if_neg hne', groupFromRight,
        stripSeps_groupRight3 _ h true]
      rw [← groupFromRight, ← formatDocumentNumberL_digits _ h hne]
      rw [formatDocumentNumberL, if_neg hne, stripSeps_digits _ h]

/-! ### Identity-label builders (`pdf-utils.ts` lines 62–88) -/

/-- JS truthiness of the optional `cualTipo` parameter: defined and non-empty. -/
def jsTruthy : Option String → Bool
  | none => false
  | some s => !(s == "")

/-- `buildTipoYDocumentoAprendiz` from `pdf-utils.ts`:
`` `${cualTipo} No. ${formattedNumber}` `` when the type is `'Otro'` and
`cualTipo` is truthy, else `` `${tipoDocumento} No. ${formattedNumber}` ``. -/
def buildTipoYDocumentoAprendiz (tipoDocumento numeroDocumento : String)
    (cualTipo : Option String) : String :=
  let formattedNumber := formatDocumentNumber numeroDocumento
  if (tipoDocumento == "Otro") && jsTruthy cualTipo then
    cualTipo.getD "" ++ " No. " ++ formattedNumber
  else
    tipoDocumento ++ " No. " ++ formattedNumber

/-- `buildTipoYDocumentoTutor` from `pdf-utils.ts`:
`` `${tipoDocumento} No. ${formattedNumber}` ``. -/
def buildTipoYDocumentoTutor (tipoDocumento numeroDocumento : String) : String :=
  tipoDocumento ++ " No. " ++ formatDocumentNumber numeroDocumento

/-! ### Data model (`src/lib/types.ts`) -/

/-- `FullDocumentData` from `types.ts` (the merge of `AprendizDataFromAPI`,
`UserDataPayload` and `CalculatedData`). The source field `año` is spelt `anio`
here because `ñ` is not a Lean identifier character. -/
structure FullDocumentData where
  nombre_aprendiz : String
  tipo_documento_aprendiz : String
  cual_tipo_id_aprendiz : String
  numero_documento_aprendiz : String
  programa_formacion : String
  numero_ficha : String
  centro_formacion : String
  ciudad : String
  regional : String
  firma_aprendiz : String
  firma_tutor : String
  tipo_documento_tutor : String
  numero_documento_tutor : String
  nombre_tutor : String
  cc_tutor : String
  ce_tutor : String
  documento_tutor : String
  municipio_documento_tutor : String
  correo_electronico_tutor : String
  direccion_contacto_tutor : String
  dia : String
  mes : String
  anio : String
  fecha : String
deriving DecidableEq

/-! ### The PDF form model and `setTextField` -/

/-- A loaded PDF form: the text value of each named field, `none` when the
template does not define the field. -/
def Form := String → Option String

/-- `form.getTextField(fieldName)` — pdf-lib throws when the field is absent;
modelled as an `Except`. -/
def getTextField (form : Form) (fieldName : String) : Except String String :=
  match form fieldName with
  | some v => .ok v
  | none => .error ("Campo no encontrado: " ++ fieldName)

/-- The raw effect of looking up a field and calling `setText` on it; the
lookup may throw. -/
def setTextFieldRaw (form : Form) (fieldName value : String) :
    Except String Form :=
  match getTextField form fieldName with
  | .ok _ => .ok (fun n => if n == fieldName then some value else form n)
  | .error e => .error e

/-- `setTextField` from `pdf-utils.ts`: the whole lookup-and-set is inside
`try { ... } catch { console.warn(...) }`, so a failure leaves the form
unchanged. -/
def setTextField (form : Form) (fieldName value : String) : Form :=
  match setTextFieldRaw form fieldName value with
  | .ok f => f
  | .error _ => form

/-- The `try`/`catch` around the body of `setTextField`, kept at the `Except`
level: an error from the raw operation is caught (logged) and execution
continues with the form unchanged. -/
def setTextFieldCaught (form : Form) (fieldName value : String) :
    Except String Form :=
  match setTextFieldRaw form fieldName value with
  | .ok f => .ok f
  | .error _ => .ok form

theorem setTextField_eq (form : Form) (fieldName value : String) :
    setTextField form fieldName value =
      fun n => if n == fieldName then (form fieldName).map (fun _ => value) else form n := by
  funext n
  rw [setTextField, setTextFieldRaw, getTextField]
  cases hf : form fieldName with
  | some v =>
      by_cases hn : (n == fieldName) = true
      · simp [hn, hf]
      · simp at hn
        simp [hn, hf]
  | none =>
      by_cases hn : (n == fieldName) = true
      · have : n = fieldName := by simpa using hn
        simp [hn, this, hf]
      · simp at hn
        simp [hn, hf]

/-- `setTextFieldCaught` never propagates an error and agrees with the caught
`setTextField`. -/
theorem setTextFieldCaught_ok (form : Form) (fieldName value : String) :
    setTextFieldCaught form fieldName value = .ok (setTextField form fieldName value) := by
  rw [setTextFieldCaught, setTextField]
  cases setTextFieldRaw form fieldName value <;> rfl

/-! ### Field-write sequences of the two fillers -/

/-- Apply a sequence of `setTextField` writes in order. -/
def applyWrites (form : Form) (ws : List (String × String)) : Form :=
  ws.foldl (fun f p => setTextField f p.1 p.2) form

/-- `applyWrites` at the `Except` level, each write wrapped in its own
`try`/`catch` exactly as in the source. -/
def applyWritesE (form : Form) (ws : List (String × String)) :
    Except String Form :=
  ws.foldlM (fun f p => setTextFieldCaught f p.1 p.2) form

theorem applyWritesE_ok (form : Form) (ws : List (String × String)) :
    applyWritesE form ws = .ok (applyWrites form ws) := by
  induction ws generalizing form with
  | nil => rfl
  | cons p rest ih =>
      rw [applyWritesE, applyWrites, List.foldlM_cons, List.foldl_cons,
        setTextFieldCaught_ok]
      exact ih (setTextField form p.1 p.2)

/-- The `checkboxMap` of `fillActaCompromiso` (`pdf-utils.ts` lines 144–149). -/
def checkboxMap : String → Option String := fun t =>
  if t == "TI" then some "tipo_tarjeta_aprendiz"
  else if t == "CC" then some "tipo_cedula_aprendiz"
  else if t == "CE" then some "tipo_CE_aprendiz"
  else if t == "Otro" then some "tipo_otro_aprendiz"
  else none

/-- The four applicant document-type indicator fields, in source order. -/
def tipoDocFields : List String :=
  ["tipo_tarjeta_aprendiz", "tipo_cedula_aprendiz", "tipo_CE_aprendiz", "tipo_otro_aprendiz"]

/-- The ordered `setTextField` writes performed by `fillActaCompromiso`
(`pdf-utils.ts` lines 119–189): applicant fields, clearing of the four
document-type indicators, conditional `X` mark, the `cual` field, programme
fields, guardian fields and date fields. -/
def actaWrites (d : FullDocumentData) : List (String × String) :=
  [("nombre_aprendiz", d.nombre_aprendiz),
   ("tipo_y_documento_aprendiz",
     buildTipoYDocumentoAprendiz d.tipo_documento_aprendiz d.numero_documento_aprendiz
       (some d.cual_tipo_id_aprendiz)),
   ("numero_documento_aprendiz", formatDocumentNumber d.numero_documento_aprendiz),
   ("tipo_tarjeta_aprendiz", ""),
   ("tipo_cedula_aprendiz", ""),
   ("tipo_CE_aprendiz", ""),
   ("tipo_otro_aprendiz", "")]
  ++ (match checkboxMap d.tipo_documento_aprendiz with
      | some fieldName => [(fieldName, "X")]
      | none => [])
  ++ [("cual_tipo_id_aprendiz",
        if (d.tipo_documento_aprendiz == "Otro") && !(d.cual_tipo_id_aprendiz == "") then
          d.cual_tipo_id_aprendiz
        else ""),
      ("programa_formacion", d.programa_formacion),
      ("numero_ficha", d.numero_ficha),
      ("centro_formacion", d.centro_formacion),
      ("tipo_y_documento_tutor",
        buildTipoYDocumentoTutor d.tipo_documento_tutor d.numero_documento_tutor),
      ("documento_tutor", formatDocumentNumber d.numero_documento_tutor),
      ("municipio_documento_tutor", d.municipio_documento_tutor),
      ("correo_electronico_tutor", d.correo_electronico_tutor),
      ("direccion_contacto_tutor", d.direccion_contacto_tutor),
      ("dia", d.dia),
      ("mes", d.mes),
      ("año", d.anio)]

/-- The ordered `setTextField` writes performed by `fillTratamientoDatos`
(`pdf-utils.ts` lines 242–294): institutional fields, guardian fields with the
conditional `cc_tutor`/`ce_tutor` marks, and applicant fields. -/
def tratamientoWrites (d : FullDocumentData) : List (String × String) :=
  [("fecha", d.fecha),
   ("ciudad", d.ciudad),
   ("regional", d.regional),
   ("centro_formacion", d.centro_formacion),
   ("programa_formacion", d.programa_formacion),
   ("numero_ficha", d.numero_ficha),
   ("nombre_tutor", d.nombre_tutor),
   ("tipo_y_documento_tutor",
     buildTipoYDocumentoTutor d.tipo_documento_tutor d.numero_documento_tutor)]
  ++ (if d.tipo_documento_tutor == "CC" then
        [("cc_tutor", "X"), ("ce_tutor", "")]
      else if d.tipo_documento_tutor == "CE" then
        [("cc_tutor", ""), ("ce_tutor", "X")]
      else [])
  ++ [("documento_tutor", formatDocumentNumber d.numero_documento_tutor),
      ("municipio_documento_tutor", d.municipio_documento_tutor),
      ("correo_electronico_tutor", d.correo_electronico_tutor),
      ("direccion_contacto_tutor", d.direccion_contacto_tutor),
      ("nombre_aprendiz", d.nombre_aprendiz),
      ("tipo_y_documento_aprendiz",
        buildTipoYDocumentoAprendiz d.tipo_documento_aprendiz d.numero_documento_aprendiz
          (some d.cual_tipo_id_aprendiz)),
      ("numero_documento_aprendiz", formatDocumentNumber d.numero_documento_aprendiz)]

/-! ### Signature embedding (`pdf-utils.ts` lines 355–421)

Rectangles and image dimensions are modelled with exact rational arithmetic. -/

/-- A widget rectangle (`widget.getRectangle()`) or a computed draw rectangle. -/
structure Rect where
  x : ℚ
  y : ℚ
  width : ℚ
  height : ℚ
deriving DecidableEq

/-- An embedded image with its pixel dimensions. -/
structure EmbeddedImage where
  width : ℚ
  height : ℚ
deriving DecidableEq

/-- The resolved signature text field: its widget rectangles. -/
structure SigField where
  widgets : List Rect
deriving DecidableEq

/-- The geometry part of `insertSignatureImage`: fit the image into the widget
rectangle preserving aspect ratio, then centre it (source lines 393–414). -/
def computeSignatureDraw (rect : Rect) (image : EmbeddedImage) : Rect :=
  let fieldWidth := rect.width
  let fieldHeight := rect.height
  let imageAspectRatio := image.width / image.height
  let drawHeight₀ := fieldWidth / imageAspectRatio
  let drawWidth := if drawHeight₀ > fieldHeight then fieldHeight * imageAspectRatio else fieldWidth
  let drawHeight := if drawHeight₀ > fieldHeight then fieldHeight else drawHeight₀
  { x := rect.x + (fieldWidth - drawWidth) / 2
    y := rect.y + (fieldHeight - drawHeight) / 2
    width := drawWidth
    height := drawHeight }

/-- List-level string prefix test. -/
def isPrefixL : List Char → List Char → Bool
  | [], _ => true
  | _ :: _, [] => false
  | p :: ps, t :: ts => p == t && isPrefixL ps ts

/-- List-level substring test (JS `String.prototype.includes`). -/
def containsL : List Char → List Char → Bool
  | [], pat => isPrefixL pat []
  | t :: ts, pat => isPrefixL pat (t :: ts) || containsL ts pat

/-- `base64Image.includes(sub)`. -/
def jsIncludes (s sub : String) : Bool := containsL s.data sub.data

/-- `replace(/^data:image\/(png|jpg|jpeg);base64,/, '')`: drop a leading data-URI
prefix when present (the three alternatives are mutually exclusive). -/
def stripDataUriPrefix (s : String) : String :=
  if isPrefixL "data:image/png;base64,".data s.data then ⟨s.data.drop 22⟩
  else if isPrefixL "data:image/jpg;base64,".data s.data then ⟨s.data.drop 22⟩
  else if isPrefixL "data:image/jpeg;base64,".data s.data then ⟨s.data.drop 23⟩
  else s

/-- The behaviour of the pdf-lib collaborators used by `insertSignatureImage`,
abstracted as oracles: `embedPng`/`embedJpg` may fail on the decoded bytes and
`getField` may fail when the signature field is absent. -/
structure SigEnv where
  embedPng : String → Except String EmbeddedImage
  embedJpg : String → Except String EmbeddedImage
  getField : Except String SigField

/-- The in-memory PDF document: its form fields and the image rectangles drawn
onto its pages so far. -/
structure PdfDocModel where
  form : Form
  drawn : List Rect

/-- The body of `insertSignatureImage` before its surrounding `try`/`catch`:
empty signature and empty widget list return early; base64-decode, image
embedding and field lookup may throw. -/
def insertSignatureImageRaw (doc : PdfDocModel) (env : SigEnv)
    (base64Image : String) : Except String PdfDocModel :=
  if base64Image == "" then .ok doc
  else
    match (if jsIncludes base64Image "data:image/png" then
             env.embedPng (stripDataUriPrefix base64Image)
           else env.embedJpg (stripDataUriPrefix base64Image)) with
    | .error e => .error e
    | .ok image =>
        match env.getField with
        | .error e => .error e
        | .ok field =>
            match field.widgets with
            | [] => .ok doc
            | widget :: _ =>
                .ok { doc with drawn := doc.drawn ++ [computeSignatureDraw widget image] }

/-- `insertSignatureImage` from `pdf-utils.ts`: the whole body is inside
`try { ... } catch { console.error(...) }`, so any failure leaves the document
unchanged and returns normally. -/
def insertSignatureImage (doc : PdfDocModel) (env : SigEnv)
    (base64Image : String) : PdfDocModel :=
  match insertSignatureImageRaw doc env base64Image with
  | .ok doc' => doc'
  | .error _ => doc

/-- The `try`/`catch` of `insertSignatureImage` kept at the `Except` level. -/
def insertSignatureImageCaught (doc : PdfDocModel) (env : SigEnv)
    (base64Image : String) : Except String PdfDocModel :=
  match insertSignatureImageRaw doc env base64Image with
  | .ok doc' => .ok doc'
  | .error _ => .ok doc

theorem insertSignatureImageCaught_ok (doc : PdfDocModel) (env : SigEnv)
    (base64Image : String) :
    insertSignatureImageCaught doc env base64Image =
      .ok (insertSignatureImage doc env base64Image) := by
  rw [insertSignatureImageCaught, insertSignatureImage]
  cases insertSignatureImageRaw doc env base64Image <;> rfl

/-- Inserting a signature never changes any text-field value. -/
theorem insertSignatureImageRaw_form (doc : PdfDocModel) (env : SigEnv)
    (base64Image : String) (doc' : PdfDocModel)
    (h : insertSignatureImageRaw doc env base64Image = .ok doc') :
    doc'.form = doc.form := by
  rw [insertSignatureImageRaw] at h
  by_cases hb : (base64Image == "") = true
  · rw [if_pos hb] at h
    cases h
    rfl
  · rw [if_neg hb] at h
    rcases hemb : (if jsIncludes base64Image "data:image/png" then
        env.embedPng (stripDataUriPrefix base64Image)
      else env.embedJpg (stripDataUriPrefix base64Image)) with e | image
    · rw [hemb] at h
      simp only [] at h
      cases h
    · rw [hemb] at h
      simp only [] at h
      rcases hgf : env.getField with e | field
      · rw [hgf] at h
        simp only [] at h
        cases h
      · rw [hgf] at h
        simp only [] at h
        rcases hw : field.widgets with _ | ⟨widget, tail⟩
        · rw [hw] at h
          cases h
          rfl
        · rw [hw] at h
          cases h
          rfl

theorem insertSignatureImage_form (doc : PdfDocModel) (env : SigEnv)
    (base64Image : String) :
    (insertSignatureImage doc env base64Image).form = doc.form := by
  rw [insertSignatureImage]
  cases hr : insertSignatureImageRaw doc env base64Image with
  | ok doc' => exact insertSignatureImageRaw_form doc env base64Image doc' hr
  | error e => rfl

/-- A failed embedding leaves the whole document unchanged (the signature slot
stays blank). -/
theorem insertSignatureImage_of_error (doc : PdfDocModel) (env : SigEnv)
    (base64Image : String) (e : String)
    (h : insertSignatureImageRaw doc env base64Image = .error e) :
    insertSignatureImage doc env base64Image = doc := by
  rw [insertSignatureImage, h]

/-! ### The two document fillers and the orchestrator -/

/-- One generated document: the final in-memory document (the flattened form
plus the drawn signature images) and its filename. -/
structure DocumentOutput where
  buffer : PdfDocModel
  filename : String

/-- `fillActaCompromiso` (`pdf-utils.ts` lines 94–215): perform the field
writes, then insert the two signatures (each call guarded by the truthiness of
the stored base64 string), then flatten and save. -/
def fillActaCompromiso (d : FullDocumentData) (tmpl : Form)
    (envAprendiz envTutor : SigEnv) : DocumentOutput :=
  let doc₁ : PdfDocModel := ⟨applyWrites tmpl (actaWrites d), []⟩
  let doc₂ := if d.firma_aprendiz == "" then doc₁
              else insertSignatureImage doc₁ envAprendiz d.firma_aprendiz
  let doc₃ := if d.firma_tutor == "" then doc₂
              else insertSignatureImage doc₂ envTutor d.firma_tutor
  ⟨doc₃, "acta_compromiso_" ++ d.numero_documento_aprendiz ++ ".pdf"⟩

/-- `fillTratamientoDatos` (`pdf-utils.ts` lines 217–318). -/
def fillTratamientoDatos (d : FullDocumentData) (tmpl : Form)
    (envAprendiz envTutor : SigEnv) : DocumentOutput :=
  let doc₁ : PdfDocModel := ⟨applyWrites tmpl (tratamientoWrites d), []⟩
  let doc₂ := if d.firma_aprendiz == "" then doc₁
              else insertSignatureImage doc₁ envAprendiz d.firma_aprendiz
  let doc₃ := if d.firma_tutor == "" then doc₂
              else insertSignatureImage doc₂ envTutor d.firma_tutor
  ⟨doc₃, "tratamiento_datos_" ++ d.numero_documento_aprendiz ++ ".pdf"⟩

/-- `GeneratedDocuments` from `types.ts`: the commitment output is mandatory,
the data-treatment output optional. -/
structure GeneratedDocuments where
  actaCompromiso : DocumentOutput
  tratamientoDatos : Option DocumentOutput

/-- `generateDocuments` (`pdf-utils.ts` lines 5–47): always fill the
commitment document; fill the data-treatment document only when
`tipo_documento_aprendiz === 'TI'`. -/
def generateDocuments (d : FullDocumentData) (actaTmpl tratamientoTmpl : Form)
    (envAA envAT envTA envTT : SigEnv) : GeneratedDocuments :=
  let actaResult := fillActaCompromiso d actaTmpl envAA envAT
  let esMenorDeEdad := d.tipo_documento_aprendiz == "TI"
  let tratamientoResult :=
    if esMenorDeEdad then some (fillTratamientoDatos d tratamientoTmpl envTA envTT)
    else none
  ⟨actaResult, tratamientoResult⟩

/-- `fillActaCompromiso` at the `Except` level: every per-field write and every
signature insertion carries its own `try`/`catch`. -/
def fillActaCompromisoE (d : FullDocumentData) (tmpl : Form)
    (envAprendiz envTutor : SigEnv) : Except String DocumentOutput := do
  let form ← applyWritesE tmpl (actaWrites d)
  let doc₁ : PdfDocModel := ⟨form, []⟩
  let doc₂ ← if d.firma_aprendiz == "" then pure doc₁
             else insertSignatureImageCaught doc₁ envAprendiz d.firma_aprendiz
  let doc₃ ← if d.firma_tutor == "" then pure doc₂
             else insertSignatureImageCaught doc₂ envTutor d.firma_tutor
  pure ⟨doc₃, "acta_compromiso_" ++ d.numero_documento_aprendiz ++ ".pdf"⟩

/-- The `Except`-level filler never fails once the template is loaded: it
computes exactly the pure filler's output. -/
theorem fillActaCompromisoE_ok (d : FullDocumentData) (tmpl : Form)
    (envAprendiz envTutor : SigEnv) :
    fillActaCompromisoE d tmpl envAprendiz envTutor =
      .ok (fillActaCompromiso d tmpl envAprendiz envTutor) := by
  rw [fillActaCompromisoE, fillActaCompromiso, applyWritesE_ok]
  by_cases h1 : (d.firma_aprendiz == "") = true
  · by_cases h2 : (d.firma_tutor == "") = true
    · simp [h1, h2, Bind.bind, Except.bind, Pure.pure, Except.pure]
    · simp [h1, h2, Bind.bind, Except.bind, Pure.pure, Except.pure,
        insertSignatureImageCaught_ok]
  · by_cases h2 : (d.firma_tutor == "") = true
    · simp [h1, h2, Bind.bind, Except.bind, Pure.pure, Except.pure,
        insertSignatureImageCaught_ok]
    · simp [h1, h2, Bind.bind, Except.bind, Pure.pure, Except.pure,
        insertSignatureImageCaught_ok]

/-- The final text-field contents of the commitment document are exactly the
result of the field writes: signature insertion never changes them. -/
theorem fillActaCompromiso_form (d : FullDocumentData) (tmpl : Form)
    (envA envT : SigEnv) :
    (fillActaCompromiso d tmpl envA envT).buffer.form = applyWrites tmpl (actaWrites d) := by
  rw [fillActaCompromiso]
  by_cases h1 : (d.firma_aprendiz == "") = true <;>
    by_cases h2 : (d.firma_tutor == "") = true <;>
      simp [h1, h2, insertSignatureImage_form]

/-- Likewise for the data-treatment document. -/
theorem fillTratamientoDatos_form (d : FullDocumentData) (tmpl : Form)
    (envA envT : SigEnv) :
    (fillTratamientoDatos d tmpl envA envT).buffer.form =
      applyWrites tmpl (tratamientoWrites d) := by
  rw [fillTratamientoDatos]
  by_cases h1 : (d.firma_aprendiz == "") = true <;>
    by_cases h2 : (d.firma_tutor == "") = true <;>
      simp [h1, h2, insertSignatureImage_form]

/-! ### Concrete fixtures used by witnesses and counterexamples -/

/-- A template form that defines every field, initially blank. -/
def allFieldsForm : Form := fun _ => some ""

/-- A pdf-lib environment in which every fallible collaborator fails. -/
def trivialSigEnv : SigEnv :=
  ⟨fun _ => .error "embedPng failed", fun _ => .error "embedJpg failed",
   .error "field missing"⟩

/-- An adult applicant (`CC`) with a valid applicant signature and every
guardian field left as the empty string. -/
def dAdult : FullDocumentData where
  nombre_aprendiz := "Juan Pérez"
  tipo_documento_aprendiz := "CC"
  cual_tipo_id_aprendiz := ""
  numero_documento_aprendiz := "1012345678"
  programa_formacion := "ADSO"
  numero_ficha := "2556677"
  centro_formacion := "Centro de Comercio"
  ciudad := "Bogotá"
  regional := "Distrito Capital"
  firma_aprendiz := "data:image/png;base64,iVBOR"
  firma_tutor := ""
  tipo_documento_tutor := ""
  numero_documento_tutor := ""
  nombre_tutor := ""
  cc_tutor := ""
  ce_tutor := ""
  documento_tutor := ""
  municipio_documento_tutor := ""
  correo_electronico_tutor := ""
  direccion_contacto_tutor := ""
  dia := "08"
  mes := "octubre"
  anio := "2025"
  fecha := "08 de octubre de 2025"

/-- A minor applicant (`TI`) with a complete guardian record (`CC`). -/
def dMinor : FullDocumentData where
  nombre_aprendiz := "Ana Gómez"
  tipo_documento_aprendiz := "TI"
  cual_tipo_id_aprendiz := ""
  numero_documento_aprendiz := "1007123456"
  programa_formacion := "ADSO"
  numero_ficha := "2556677"
  centro_formacion := "Centro de Comercio"
  ciudad := "Bogotá"
  regional := "Distrito Capital"
  firma_aprendiz := "data:image/png;base64,iVBOR"
  firma_tutor := "data:image/png;base64,iVBOR"
  tipo_documento_tutor := "CC"
  numero_documento_tutor := "52123456"
  nombre_tutor := "María Gómez"
  cc_tutor := ""
  ce_tutor := ""
  documento_tutor := ""
  municipio_documento_tutor := "Bogotá"
  correo_electronico_tutor := "maria@example.com"
  direccion_contacto_tutor := "Calle 1 # 2-3"
  dia := "08"
  mes := "octubre"
  anio := "2025"
  fecha := "08 de octubre de 2025"

/-! ### Claim theorems -/

/-- C1: for every assembled data record and pair of loaded templates,
`generateDocuments` contains the data-treatment output iff the applicant's
document-type equals `'TI'`; for any other value that slot is `none` (absent,
not an empty document), while the commitment output is always present and is
the commitment filler's result. -/
theorem generateDocuments_tratamiento_iff_TI
    (d : FullDocumentData) (actaTmpl tratamientoTmpl : Form)
    (envAA envAT envTA envTT : SigEnv) :
    ((generateDocuments d actaTmpl tratamientoTmpl envAA envAT envTA envTT).tratamientoDatos.isSome
        = true ↔ d.tipo_documento_aprendiz = "TI") ∧
    (generateDocuments d actaTmpl tratamientoTmpl envAA envAT envTA envTT).tratamientoDatos =
      (if d.tipo_documento_aprendiz = "TI" then
        some (fillTratamientoDatos d tratamientoTmpl envTA envTT)
      else none) ∧
    (generateDocuments d actaTmpl tratamientoTmpl envAA envAT envTA envTT).actaCompromiso =
      fillActaCompromiso d actaTmpl envAA envAT := by
  by_cases h : d.tipo_documento_aprendiz = "TI" <;>
    simp [generateDocuments, h]

/-- C3: on a digit string of length 1 to 12, possibly interspersed with dots
and spaces, `formatDocumentNumber` keeps the digit sequence unchanged (same
order, no digit dropped) and inserts a `.` every three digits counted from the
right; moreover `formatDocumentNumber "" = ""` and
`formatDocumentNumber "1234567" = "1.234.567"`. -/
theorem formatDocumentNumber_groups_digits (s : String)
    (hall : ∀ c ∈ s.data, c.isDigit = true ∨ c = '.' ∨ c = ' ')
    (h1 : 1 ≤ (s.data.filter (fun c => c.isDigit)).length)
    (h12 : (s.data.filter (fun c => c.isDigit)).length ≤ 12) :
    (formatDocumentNumber s).data = groupFromRight (s.data.filter (fun c => c.isDigit)) ∧
    (formatDocumentNumber s).data.filter (fun c => c.isDigit) =
      s.data.filter (fun c => c.isDigit) ∧
    formatDocumentNumber "" = "" ∧
    formatDocumentNumber "1234567" = "1.234.567" := by
  have hfd : ∀ c ∈ s.data.filter (fun c => c.isDigit), c.isDigit = true := by
    intro c hc
    exact (List.mem_filter.mp hc).2
  have heq : (formatDocumentNumber s).data =
      groupFromRight (s.data.filter (fun c => c.isDigit)) :=
    formatDocumentNumberL_mixed s.data hall h1
  refine ⟨heq, ?_, by decide, by decide⟩
  rw [heq, groupFromRight, groupRight3_filter_digits _ hfd true]

/-- Witness for C3 at the concrete input `"1.234 567"`. -/
theorem formatDocumentNumber_groups_digits_witness :
    (∀ c ∈ ("1.234 567" : String).data, c.isDigit = true ∨ c = '.' ∨ c = ' ') ∧
    1 ≤ (("1.234 567" : String).data.filter (fun c => c.isDigit)).length ∧
    (("1.234 567" : String).data.filter (fun c => c.isDigit)).length ≤ 12 ∧
    (formatDocumentNumber "1.234 567").data =
      groupFromRight (("1.234 567" : String).data.filter (fun c => c.isDigit)) :=
  ⟨by decide, by decide, by decide,
    (formatDocumentNumber_groups_digits "1.234 567" (by decide) (by decide) (by decide)).1⟩

/-- C4: `formatDocumentNumber` is idempotent on digit-only inputs, because the
formatter strips dot and space separators before regrouping. -/
theorem formatDocumentNumber_idem (s : String)
    (h : ∀ c ∈ s.data, c.isDigit = true) :
    formatDocumentNumber (formatDocumentNumber s) = formatDocumentNumber s := by
  have hidem := formatDocumentNumberL_idem s.data h
  show (⟨formatDocumentNumberL (formatDocumentNumberL s.data)⟩ : String) =
    ⟨formatDocumentNumberL s.data⟩
  rw [hidem]

/-- Witness for C4 at the concrete input `"1234567"`. -/
theorem formatDocumentNumber_idem_witness :
    (∀ c ∈ ("1234567" : String).data, c.isDigit = true) ∧
    formatDocumentNumber (formatDocumentNumber "1234567") = formatDocumentNumber "1234567" :=
  ⟨by decide, formatDocumentNumber_idem "1234567" (by decide)⟩

/-- C5: the composite identity label is `"{label} No. {formattedNumber}"`,
where `label` is the other-label exactly when the document-type is `'Otro'`
and the other-label is non-empty, otherwise the document-type verbatim; in
particular the two concrete examples of the spec hold. -/
theorem buildTipoYDocumentoAprendiz_spec (docType docNumber : String)
    (otherLabel : Option String) :
    buildTipoYDocumentoAprendiz docType docNumber otherLabel =
      (if docType = "Otro" ∧ otherLabel.getD "" ≠ "" then otherLabel.getD ""
       else docType) ++ " No. " ++ formatDocumentNumber docNumber ∧
    buildTipoYDocumentoAprendiz "CC" "1234567" none = "CC No. 1.234.567" ∧
    buildTipoYDocumentoAprendiz "Otro" "555" (some "Pasaporte") = "Pasaporte No. 555" := by
  refine ⟨?_, by decide, by decide⟩
  rw [buildTipoYDocumentoAprendiz]
  cases otherLabel with
  | none => simp [jsTruthy]
  | some lbl =>
      by_cases hd : docType = "Otro"
      · by_cases hl : lbl = ""
        · simp [jsTruthy, hd, hl]
        · simp [jsTruthy, hd, hl]
      · simp [jsTruthy, hd]

/-- C7: for a positive field rectangle and a positive image, the computed draw
rectangle never overflows the field box, touches it exactly in at least one
dimension, preserves the image's aspect ratio, and is centred with offset
`(dimension − fitted-dimension) / 2` on each axis. -/
theorem computeSignatureDraw_fits (rect : Rect) (image : EmbeddedImage)
    (hW : 0 < rect.width) (hH : 0 < rect.height)
    (hiw : 0 < image.width) (hih : 0 < image.height) :
    (computeSignatureDraw rect image).width ≤ rect.width ∧
    (computeSignatureDraw rect image).height ≤ rect.height ∧
    ((computeSignatureDraw rect image).width = rect.width ∨
      (computeSignatureDraw rect image).height = rect.height) ∧
    (computeSignatureDraw rect image).width / (computeSignatureDraw rect image).height =
      image.width / image.height ∧
    (computeSignatureDraw rect image).x =
      rect.x + (rect.width - (computeSignatureDraw rect image).width) / 2 ∧
    (computeSignatureDraw rect image).y =
      rect.y + (rect.height - (computeSignatureDraw rect image).height) / 2 := by
  have hR : 0 < image.width / image.height := div_pos hiw hih
  by_cases hover : rect.width / (image.width / image.height) > rect.height
  · have hwle : rect.height * (image.width / image.height) ≤ rect.width :=
      le_of_lt ((lt_div_iff₀ hR).mp hover)
    simp only [computeSignatureDraw, if_pos hover]
    refine ⟨hwle, le_refl _, Or.inr trivial, ?_, trivial, trivial⟩
    rw [mul_comm, mul_div_assoc, div_self hH.ne', mul_one]
  · have hhle : rect.width / (image.width / image.height) ≤ rect.height :=
      le_of_not_lt hover
    simp only [computeSignatureDraw, if_neg hover]
    refine ⟨le_refl _, hhle, Or.inl trivial, ?_, trivial, trivial⟩
    rw [div_div_eq_mul_div, mul_comm, mul_div_assoc, div_self hW.ne', mul_one]

/-- Witness for C7 at a 10×5 field rectangle and a 2×1 image (width-bound
case), checking the aspect-ratio conjunct. -/
theorem computeSignatureDraw_fits_witness :
    (0 : ℚ) < (Rect.mk 0 0 10 5).width ∧
    (computeSignatureDraw (Rect.mk 0 0 10 5) (EmbeddedImage.mk 2 1)).width /
        (computeSignatureDraw (Rect.mk 0 0 10 5) (EmbeddedImage.mk 2 1)).height =
      (EmbeddedImage.mk 2 1).width / (EmbeddedImage.mk 2 1).height :=
  ⟨by norm_num,
    (computeSignatureDraw_fits (Rect.mk 0 0 10 5) (EmbeddedImage.mk 2 1)
      (by norm_num) (by norm_num) (by norm_num) (by norm_num)).2.2.2.1⟩

/-- C8: a field-name lookup miss is non-fatal: for every form, field name and
value, the caught `setTextField` returns normally (never propagates the
error), and the whole fill operation at the `Except` level completes with the
pure filler's output on any template, including templates missing expected
fields. -/
theorem setTextField_never_throws (form : Form) (fieldName value : String)
    (d : FullDocumentData) (tmpl : Form) (envA envT : SigEnv) :
    setTextFieldCaught form fieldName value = .ok (setTextField form fieldName value) ∧
    applyWritesE tmpl (actaWrites d) = .ok (applyWrites tmpl (actaWrites d)) ∧
    fillActaCompromisoE d tmpl envA envT = .ok (fillActaCompromiso d tmpl envA envT) :=
  ⟨setTextFieldCaught_ok form fieldName value,
   applyWritesE_ok tmpl (actaWrites d),
   fillActaCompromisoE_ok d tmpl envA envT⟩

/-- C9: signature-embedding failure is non-fatal: for every document state,
pdf-lib environment (covering malformed data, embed failures and missing
fields or widgets) and payload, the caught `insertSignatureImage` returns
normally; when the raw operation fails the document is unchanged (the
signature slot stays blank), and the filler still produces its field output. -/
theorem insertSignatureImage_never_throws (doc : PdfDocModel) (env : SigEnv)
    (base64Image : String) (d : FullDocumentData) (tmpl : Form) (envA envT : SigEnv) :
    insertSignatureImageCaught doc env base64Image =
      .ok (insertSignatureImage doc env base64Image) ∧
    (∀ e, insertSignatureImageRaw doc env base64Image = .error e →
      insertSignatureImage doc env base64Image = doc) ∧
    fillActaCompromisoE d tmpl envA envT = .ok (fillActaCompromiso d tmpl envA envT) ∧
    (fillActaCompromiso d tmpl envA envT).buffer.form = applyWrites tmpl (actaWrites d) :=
  ⟨insertSignatureImageCaught_ok doc env base64Image,
   fun e he => insertSignatureImage_of_error doc env base64Image e he,
   fillActaCompromisoE_ok d tmpl envA envT,
   fillActaCompromiso_form d tmpl envA envT⟩

/-- Witness for C9: with an environment whose embedder always fails and a
non-empty payload, the caught insertion leaves the document unchanged. -/
theorem insertSignatureImage_never_throws_witness :
    insertSignatureImage ⟨allFieldsForm, []⟩ trivialSigEnv "sig" = ⟨allFieldsForm, []⟩ :=
  (insertSignatureImage_never_throws ⟨allFieldsForm, []⟩ trivialSigEnv "sig"
    dAdult allFieldsForm trivialSigEnv trivialSigEnv).2.1 "embedJpg failed" rfl

/-- C2 counterexample: for the concrete adult record `dAdult` (document-type
`CC`, valid applicant signature, every guardian field the empty string), the
commitment document's guardian identity field `tipo_y_documento_tutor` is
`" No. "` — the template literal with empty type and number — and not the
empty string the claim asserts. -/
theorem acta_adult_guardian_identity_counterexample :
    (generateDocuments dAdult allFieldsForm allFieldsForm trivialSigEnv trivialSigEnv
        trivialSigEnv trivialSigEnv).actaCompromiso.buffer.form "tipo_y_documento_tutor" =
      some " No. " ∧
    ¬((generateDocuments dAdult allFieldsForm allFieldsForm trivialSigEnv trivialSigEnv
        trivialSigEnv trivialSigEnv).actaCompromiso.buffer.form "tipo_y_documento_tutor" =
      some "") := by
  constructor
  · decide
  · decide

/-- C2 amended: for an adult applicant (`CC`) with all guardian input fields
empty strings, the commitment document's composite guardian identity field is
written as `" No. "` (the `"{type} No. {number}"` literal with both parts
empty), every individual guardian field (`documento_tutor`,
`municipio_documento_tutor`, `correo_electronico_tutor`,
`direccion_contacto_tutor`) is written as the empty string — so no residual
template content remains — and no data-treatment document is generated. -/
theorem acta_adult_guardian_fields (d : FullDocumentData)
    (actaTmpl tratamientoTmpl : Form) (envAA envAT envTA envTT : SigEnv)
    (hcc : d.tipo_documento_aprendiz = "CC")
    (htipo : d.tipo_documento_tutor = "") (hnum : d.numero_documento_tutor = "")
    (hmun : d.municipio_documento_tutor = "") (hcor : d.correo_electronico_tutor = "")
    (hdir : d.direccion_contacto_tutor = "") :
    (generateDocuments d actaTmpl tratamientoTmpl envAA envAT envTA
        envTT).actaCompromiso.buffer.form "tipo_y_documento_tutor" =
      (actaTmpl "tipo_y_documento_tutor").map (fun _ => " No. ") ∧
    (generateDocuments d actaTmpl tratamientoTmpl envAA envAT envTA
        envTT).actaCompromiso.buffer.form "documento_tutor" =
      (actaTmpl "documento_tutor").map (fun _ => "") ∧
    (generateDocuments d actaTmpl tratamientoTmpl envAA envAT envTA
        envTT).actaCompromiso.buffer.form "municipio_documento_tutor" =
      (actaTmpl "municipio_documento_tutor").map (fun _ => "") ∧
    (generateDocuments d actaTmpl tratamientoTmpl envAA envAT envTA
        envTT).actaCompromiso.buffer.form "correo_electronico_tutor" =
      (actaTmpl "correo_electronico_tutor").map (fun _ => "") ∧
    (generateDocuments d actaTmpl tratamientoTmpl envAA envAT envTA
        envTT).actaCompromiso.buffer.form "direccion_contacto_tutor" =
      (actaTmpl "direccion_contacto_tutor").map (fun _ => "") ∧
    (generateDocuments d actaTmpl tratamientoTmpl envAA envAT envTA
        envTT).tratamientoDatos = none := by
  have hacta : (generateDocuments d actaTmpl tratamientoTmpl envAA envAT envTA
      envTT).actaCompromiso.buffer.form = applyWrites actaTmpl (actaWrites d) :=
    fillActaCompromiso_form d actaTmpl envAA envAT
  have hb : buildTipoYDocumentoTutor "" "" = " No. " := rfl
  have hf : formatDocumentNumber "" = "" := rfl
  refine ⟨?_, ?_, ?_, ?_, ?_, by simp [generateDocuments, hcc]⟩ <;>
    rw [hacta] <;>
      simp [applyWrites, actaWrites, setTextField_eq, hcc, checkboxMap, List.foldl,
        htipo, hnum, hmun, hcor, hdir, hb, hf]

/-- Witness for the amended C2 at the concrete record `dAdult`. -/
theorem acta_adult_guardian_fields_witness :
    (generateDocuments dAdult allFieldsForm allFieldsForm trivialSigEnv trivialSigEnv
        trivialSigEnv trivialSigEnv).actaCompromiso.buffer.form "documento_tutor" =
      (allFieldsForm "documento_tutor").map (fun _ => "") :=
  (acta_adult_guardian_fields dAdult allFieldsForm allFieldsForm trivialSigEnv
    trivialSigEnv trivialSigEnv trivialSigEnv rfl rfl rfl rfl rfl rfl).2.1

/-- C6: for every applicant document-type among `TI`, `CC`, `CE`, `Otro` and
every template defining the four indicator fields, after the commitment filler
runs, the indicator mapped to the selected type carries `"X"` and the other
three are the empty string — mutual exclusivity for all four selections. -/
theorem acta_checkbox_mutual_exclusive (d : FullDocumentData) (tmpl : Form)
    (envA envT : SigEnv)
    (htipo : d.tipo_documento_aprendiz ∈ (["TI", "CC", "CE", "Otro"] : List String))
    (hp : ∀ f ∈ tipoDocFields, (tmpl f).isSome = true) :
    ∃ marked, checkboxMap d.tipo_documento_aprendiz = some marked ∧
      marked ∈ tipoDocFields ∧
      (fillActaCompromiso d tmpl envA envT).buffer.form marked = some "X" ∧
      ∀ f ∈ tipoDocFields, f ≠ marked →
        (fillActaCompromiso d tmpl envA envT).buffer.form f = some "" := by
  have h1 := hp "tipo_tarjeta_aprendiz" (by simp [tipoDocFields])
  have h2 := hp "tipo_cedula_aprendiz" (by simp [tipoDocFields])
  have h3 := hp "tipo_CE_aprendiz" (by simp [tipoDocFields])
  have h4 := hp "tipo_otro_aprendiz" (by simp [tipoDocFields])
  rw [Option.isSome_iff_exists] at h1 h2 h3 h4
  obtain ⟨v1, hv1⟩ := h1
  obtain ⟨v2, hv2⟩ := h2
  obtain ⟨v3, hv3⟩ := h3
  obtain ⟨v4, hv4⟩ := h4
  have hform := fillActaCompromiso_form d tmpl envA envT
  simp only [List.mem_cons, List.not_mem_nil, or_false] at htipo
  rcases htipo with h | h | h | h
  · refine ⟨"tipo_tarjeta_aprendiz", by simp [checkboxMap, h], by simp [tipoDocFields],
      ?_, ?_⟩
    · rw [hform]
      simp [applyWrites, actaWrites, setTextField_eq, h, checkboxMap, List.foldl, hv1]
    · intro f hf hne
      simp only [tipoDocFields, List.mem_cons, List.not_mem_nil, or_false] at hf
      rw [hform]
      rcases hf with rfl | rfl | rfl | rfl
      · exact absurd rfl hne
      · simp [applyWrites, actaWrites, setTextField_eq, h, checkboxMap, List.foldl, hv2]
      · simp [applyWrites, actaWrites, setTextField_eq, h, checkboxMap, List.foldl, hv3]
      · simp [applyWrites, actaWrites, setTextField_eq, h, checkboxMap, List.foldl, hv4]
  · refine ⟨"tipo_cedula_aprendiz", by simp [checkboxMap, h], by simp [tipoDocFields],
      ?_, ?_⟩
    · rw [hform]
      simp [applyWrites, actaWrites, setTextField_eq, h, checkboxMap, List.foldl, hv2]
    · intro f hf hne
      simp only [tipoDocFields, List.mem_cons, List.not_mem_nil, or_false] at hf
      rw [hform]
      rcases hf with rfl | rfl | rfl | rfl
      · simp [applyWrites, actaWrites, setTextField_eq, h, checkboxMap, List.foldl, hv1]
      · exact absurd rfl hne
      · simp [applyWrites, actaWrites, setTextField_eq, h, checkboxMap, List.foldl, hv3]
      · simp [applyWrites, actaWrites, setTextField_eq, h, checkboxMap, List.foldl, hv4]
  · refine ⟨"tipo_CE_aprendiz", by simp [checkboxMap, h], by simp [tipoDocFields],
      ?_, ?_⟩
    · rw [hform]
      simp [applyWrites, actaWrites, setTextField_eq, h, checkboxMap, List.foldl, hv3]
    · intro f hf hne
      simp only [tipoDocFields, List.mem_cons, List.not_mem_nil, or_false] at hf
      rw [hform]
      rcases hf with rfl | rfl | rfl | rfl
      · simp [applyWrites, actaWrites, setTextField_eq, h, checkboxMap, List.foldl, hv1]
      · simp [applyWrites, actaWrites, setTextField_eq, h, checkboxMap, List.foldl, hv2]
      · exact absurd rfl hne
      · simp [applyWrites, actaWrites, setTextField_eq, h, checkboxMap, List.foldl, hv4]
  · refine ⟨"tipo_otro_aprendiz", by simp [checkboxMap, h], by simp [tipoDocFields],
      ?_, ?_⟩
    · rw [hform]
      simp [applyWrites, actaWrites, setTextField_eq, h, checkboxMap, List.foldl, hv4]
    · intro f hf hne
      simp only [tipoDocFields, List.mem_cons, List.not_mem_nil, or_false] at hf
      rw [hform]
      rcases hf with rfl | rfl | rfl | rfl
      · simp [applyWrites, actaWrites, setTextField_eq, h, checkboxMap, List.foldl, hv1]
      · simp [applyWrites, actaWrites, setTextField_eq, h, checkboxMap, List.foldl, hv2]
      · simp [applyWrites, actaWrites, setTextField_eq, h, checkboxMap, List.foldl, hv3]
      · exact absurd rfl hne

/-- Witness for C6 at the concrete minor record `dMinor` and a template
defining every field. -/
theorem acta_checkbox_mutual_exclusive_witness :
    ∃ marked, checkboxMap dMinor.tipo_documento_aprendiz = some marked ∧
      marked ∈ tipoDocFields ∧
      (fillActaCompromiso dMinor allFieldsForm trivialSigEnv
          trivialSigEnv).buffer.form marked = some "X" ∧
      ∀ f ∈ tipoDocFields, f ≠ marked →
        (fillActaCompromiso dMinor allFieldsForm trivialSigEnv
            trivialSigEnv).buffer.form f = some "" :=
  acta_checkbox_mutual_exclusive dMinor allFieldsForm trivialSigEnv trivialSigEnv
    (by decide) (by decide)

/-- C10 (implicit): in the data-treatment filler the guardian indicator pair is
written only when the guardian document-type is exactly `CC` or exactly `CE`
(marking the matching field with `X` and clearing the sibling); for any other
value neither `cc_tutor` nor `ce_tutor` is written at all — the pair keeps the
template's prior content, unlike the applicant group of the commitment filler,
which is always cleared before marking. -/
theorem tratamiento_tutor_indicator_writes (d : FullDocumentData) (tmpl : Form)
    (envA envT : SigEnv) :
    (d.tipo_documento_tutor = "CC" →
      (fillTratamientoDatos d tmpl envA envT).buffer.form "cc_tutor" =
          (tmpl "cc_tutor").map (fun _ => "X") ∧
      (fillTratamientoDatos d tmpl envA envT).buffer.form "ce_tutor" =
          (tmpl "ce_tutor").map (fun _ => "")) ∧
    (d.tipo_documento_tutor = "CE" →
      (fillTratamientoDatos d tmpl envA envT).buffer.form "cc_tutor" =
          (tmpl "cc_tutor").map (fun _ => "") ∧
      (fillTratamientoDatos d tmpl envA envT).buffer.form "ce_tutor" =
          (tmpl "ce_tutor").map (fun _ => "X")) ∧
    (d.tipo_documento_tutor ≠ "CC" → d.tipo_documento_tutor ≠ "CE" →
      (fillTratamientoDatos d tmpl envA envT).buffer.form "cc_tutor" = tmpl "cc_tutor" ∧
      (fillTratamientoDatos d tmpl envA envT).buffer.form "ce_tutor" = tmpl "ce_tutor") := by
  have hform := fillTratamientoDatos_form d tmpl envA envT
  refine ⟨fun h => ?_, fun h => ?_, fun hne1 hne2 => ?_⟩ <;> rw [hform]
  · constructor <;>
      simp [applyWrites, tratamientoWrites, setTextField_eq, h, List.foldl]
  · constructor <;>
      simp [applyWrites, tratamientoWrites, setTextField_eq, h, List.foldl]
  · constructor <;>
      simp [applyWrites, tratamientoWrites, setTextField_eq, hne1, hne2, List.foldl]

/-- Witness for C10 at the concrete minor record `dMinor`, whose guardian
document-type is `CC`. -/
theorem tratamiento_tutor_indicator_writes_witness :
    (fillTratamientoDatos dMinor allFieldsForm trivialSigEnv
        trivialSigEnv).buffer.form "cc_tutor" =
      (allFieldsForm "cc_tutor").map (fun _ => "X") :=
  ((tratamiento_tutor_indicator_writes dMinor allFieldsForm trivialSigEnv
    trivialSigEnv).1 rfl).1

end SenaPdf
